import Mathlib

/-!
Verification of the BDM Command Protocol Engine of arduino-coldfire-bdm.

The Python sources (`serial_interface.py`, `bdm_interface.py`) are shallowly
embedded below.  The serial transport is modelled as explicit state: `tx`
records every `serial.write` call (one byte list per call, exactly like
`MockColdfireSerialInterface.commands_sent`), and `rx` is the stream of bytes
the Arduino bridge will deliver to `serial.read`.  Python exceptions are
modelled with `Except`; since a raised exception does not undo earlier
serial writes, the machine state at the moment of the raise is preserved.
-/

namespace ColdfireBDM

/-- The Python exception classes raised by the modelled code paths. -/
inductive PyErr where
  | valueError (msg : String)
  | runtimeError (msg : String)
  | attributeError (msg : String)
deriving DecidableEq

/-- Python `Response` from serial_interface.py: a Coldfire debug response packet
with a status bit and a 16-bit data word. -/
structure Response where
  status : Nat
  data : Nat
deriving DecidableEq

/-- Message of the ValueError raised for the `0x0001` sentinel. -/
def errorResponseMsg : String :=
  "Coldfire responded to last-sent command with Error response"

/-- Message of the ValueError raised for the `0xFFFF` sentinel. -/
def illegalCommandMsg : String :=
  "Coldfire responded to last-sent command with Illegal Command"

/-- Python `Response.__init__`: stores `status` and `data`, then raises `ValueError`
when `status == 1` and the data word is one of the two sentinel values
`0x0001` (target error) or `0xFFFF` (illegal command). -/
def Response.make (status data : Nat) : Except PyErr Response :=
  if status = 1 then
    if data = 0x0001 then
      .error (.valueError errorResponseMsg)
    else if data = 0xFFFF then
      .error (.valueError illegalCommandMsg)
    else
      .ok { status := status, data := data }
  else
    .ok { status := status, data := data }

/-- Python `ConfigurationStatusRegister` from bdm_interface.py. -/
structure ConfigurationStatusRegister where
  data : Nat
deriving DecidableEq

/-- The `single_step_mode` property: `bool((self.data >> 4) & 0x1)`. -/
def ConfigurationStatusRegister.single_step_mode
    (csr : ConfigurationStatusRegister) : Bool :=
  ((csr.data >>> 4) &&& 0x1) != 0

/-- The state of one `BDMCommandInterface` bound to one serial transport.

* `tx`: every `serial.write` call so far, one byte list per call.
* `rx`, `rxPos`: the byte stream the bridge delivers to `serial.read`, and
  how many bytes have been consumed.  A serial port delivers bytes, so each
  byte is read mod 256.
* `rand`, `randPos`: the stream of values produced by successive
  `int(random.random() * 0xFFFFFFFF)` calls (each lies in `[0, 0xFFFFFFFE]`).
* `current_step_mode`: set to `False` by `BDMCommandInterface.__init__`.
* `in_unlock_bypass_mode`: `none` while the Python attribute does not exist
  (`__init__` never initializes it; only the flash bypass methods assign it).
-/
structure Machine where
  tx : List (List Nat)
  rx : Nat → Nat
  rxPos : Nat
  rand : Nat → Nat
  randPos : Nat
  current_step_mode : Bool
  in_unlock_bypass_mode : Option Bool

/-- The engine monad: state plus Python exceptions.  A raise keeps the state
accumulated so far (serial writes are not undone). -/
def BDMM (α : Type) : Type := Machine → Except PyErr α × Machine

instance : Monad BDMM where
  pure a := fun m => (.ok a, m)
  bind p f := fun m =>
    match p m with
    | (.ok a, m') => f a m'
    | (.error e, m') => (.error e, m')

/-- Raise a Python exception. -/
def pyRaise {α : Type} (e : PyErr) : BDMM α := fun m => (.error e, m)

/-- Read the machine state. -/
def getS : BDMM Machine := fun m => (.ok m, m)

/-- Update the machine state. -/
def modifyS (f : Machine → Machine) : BDMM Unit := fun m => (.ok (), f m)

/-- Lift an `Except` value (a possibly-raising Python expression). -/
def liftE {α : Type} (e : Except PyErr α) : BDMM α := fun m => (e, m)

/-- Run a program on a machine. -/
def runM {α : Type} (p : BDMM α) (m : Machine) : Except PyErr α × Machine := p m

/-- Python `struct.pack(">H", d)`: two bytes, big-endian.  (For `d > 0xFFFF` Python
raises `struct.error`; every call site passes a masked 16-bit value, and the
theorems about unmasked positions carry the corresponding range hypothesis.) -/
def pack16be (d : Nat) : List Nat := [d / 256 % 256, d % 256]

/-- Byte sequence of `send_packet`: `b"s"` (0x73) plus the big-endian word. -/
def txSend (c : Nat) : List Nat := 0x73 :: pack16be c

/-- Byte sequence of `send_and_receive_packet`: `b"S"` (0x53) plus the word. -/
def txSendReceive (c : Nat) : List Nat := 0x53 :: pack16be c

/-- Byte sequence of `receive_packet`: the single byte `b"r"` (0x72). -/
def txReceive : List Nat := [0x72]

/-- Python `self.serial.write(bs)`. -/
def serialWrite (bs : List Nat) : BDMM Unit :=
  modifyS fun m => { m with tx := m.tx ++ [bs] }

/-- Python `self.serial.read(3)`: the next three bytes of the receive stream. -/
def serialRead3 : BDMM (Nat × Nat × Nat) := fun m =>
  (.ok (m.rx m.rxPos % 256, m.rx (m.rxPos + 1) % 256, m.rx (m.rxPos + 2) % 256),
   { m with rxPos := m.rxPos + 3 })

/-- The comparison `response[0] == b"N"` from `_receive_packet`: in Python,
`response[0]` is an `int` and `b"N"` is a `bytes` object, and equality
between values of these two types is always `False`. -/
def pyIntEqBytes (_lhs : Nat) (_rhs : List Nat) : Bool := false

/-- Python `ColdfireSerialInterface._receive_packet`: read a 3-byte frame; the
status comes from comparing byte 0 with `b"N"`, the data word from bytes 1-2
via `struct.unpack("<H", ...)` (little-endian). -/
def receive_packet_raw : BDMM Response := do
  let (b0, b1, b2) ← serialRead3
  let status : Nat := if pyIntEqBytes b0 [0x4E] then 1 else 0
  let data : Nat := b1 + 256 * b2
  liftE (Response.make status data)

/-- Python `ColdfireSerialInterface.send_packet`. -/
def send_packet (data : Nat) : BDMM Unit :=
  serialWrite (txSend data)

/-- Python `ColdfireSerialInterface.receive_packet`: writes `b"r"` (implicitly a
no-op command) and reads the next response frame. -/
def receive_packet : BDMM Response := do
  serialWrite txReceive
  receive_packet_raw

/-- Python `ColdfireSerialInterface.send_and_receive_packet`. -/
def send_and_receive_packet (data : Nat) : BDMM Response := do
  serialWrite (txSendReceive data)
  receive_packet_raw

/-- The loop shared by `BDMCommandInterface._send` and `_send_then_receive`:
send each command while receiving (and discarding) the previous response. -/
def sendAll : List Nat → BDMM Unit
  | [] => pure ()
  | c :: cs => do
    let _ ← send_and_receive_packet c
    sendAll cs

/-- Python `BDMCommandInterface._send`. -/
def bdm_send (commands : List Nat) : BDMM Unit := sendAll commands

/-- The list comprehension `[receive_packet() for _ in range(n)]`. -/
def receiveN : Nat → BDMM (List Response)
  | 0 => pure []
  | n + 1 => do
    let r ← receive_packet
    let rest ← receiveN n
    pure (r :: rest)

/-- Python `BDMCommandInterface._send_then_receive`. -/
def send_then_receive (commands : List Nat) (response_size_words : Nat) :
    BDMM Nat := do
  sendAll commands
  let responses ← receiveN response_size_words
  let response_data := (responses.headD { status := 0, data := 0 }).data
  if responses.length = 2 then
    pure ((response_data <<< 16) ||| (responses.getD 1 { status := 0, data := 0 }).data)
  else
    pure response_data

/-- Message of the register-bounds ValueError (address registers). -/
def addrRegBoundsMsg : String :=
  "Cannot use register - Coldfire only has 8 address registers!"

/-- Message of the register-bounds ValueError (data registers). -/
def dataRegBoundsMsg : String :=
  "Cannot use register - Coldfire only has 8 data registers!"

/-- Message of the control-register-bounds ValueError. -/
def controlRegBoundsMsg : String :=
  "Coldfire only has a 12-bit control register field!"

/-- Python `BDMCommandInterface.noop`. -/
def noop : BDMM Nat := send_then_receive [0x0000] 1

/-- Python `BDMCommandInterface.read_byte`. -/
def read_byte (address : Nat) : BDMM Nat := do
  let r ← send_then_receive [0x1900, address >>> 16, address &&& 0xFFFF] 1
  pure (r &&& 0xFF)

/-- Python `BDMCommandInterface.read_word`. -/
def read_word (address : Nat) : BDMM Nat :=
  send_then_receive [0x1940, address >>> 16, address &&& 0xFFFF] 1

/-- Python `BDMCommandInterface.read_longword`. -/
def read_longword (address : Nat) : BDMM Nat :=
  send_then_receive [0x1980, address >>> 16, address &&& 0xFFFF] 2

/-- Python `BDMCommandInterface.read_address_register`: bounds check, then the
two-response-word command `0x2188 | register_number`. -/
def read_address_register (register_number : Int) : BDMM Nat :=
  if register_number > 7 ∨ register_number < 0 then
    pyRaise (.valueError addrRegBoundsMsg)
  else
    send_then_receive [0x2188 ||| register_number.toNat] 2

/-- Python `BDMCommandInterface.read_data_register`. -/
def read_data_register (register_number : Int) : BDMM Nat :=
  if register_number > 7 ∨ register_number < 0 then
    pyRaise (.valueError dataRegBoundsMsg)
  else
    send_then_receive [0x2180 ||| register_number.toNat] 2

/-- Python `BDMCommandInterface.read_control_register`. -/
def read_control_register (register_encoding : Int) : BDMM Nat :=
  if register_encoding < 0 ∨ register_encoding > 4095 then
    pyRaise (.valueError controlRegBoundsMsg)
  else
    send_then_receive [0x2980, 0, register_encoding.toNat &&& 0xFFF] 2

/-- Python `BDMCommandInterface.read_debug_configuration_status_register`. -/
def read_debug_configuration_status_register :
    BDMM ConfigurationStatusRegister := do
  let v ← send_then_receive [0x2D80] 2
  pure { data := v }

/-- Python `BDMCommandInterface.write_debug_configuration_status_register`: note the
source sends `new_value & 0xFFF` (twelve bits) as the low word, and uses
`_send_then_receive` with its default of one response word. -/
def write_debug_configuration_status_register (new_value : Nat) : BDMM Nat :=
  send_then_receive [0x2C80, new_value >>> 16, new_value &&& 0xFFF] 1

/-- Python `BDMCommandInterface.set_single_step_mode`. -/
def set_single_step_mode (enabled : Bool) : BDMM Unit := do
  let m ← getS
  if m.current_step_mode = enabled then
    pure ()
  else
    let csr ← read_debug_configuration_status_register
    let new_register := csr.data &&& 0xFFFFFFEF
    let new_register := if enabled then new_register ||| 0b10000 else new_register
    let _ ← write_debug_configuration_status_register new_register
    modifyS fun s => { s with current_step_mode := enabled }

/-- Python `BDMCommandInterface.go`. -/
def go : BDMM Nat := do
  set_single_step_mode false
  send_then_receive [0x0C00] 1

/-- Python `BDMCommandInterface.step`. -/
def step : BDMM Nat := do
  set_single_step_mode true
  send_then_receive [0x0C00] 1

/-- The `for _ in range(num_words)` loop of `dump_words`: each iteration
sends the pipelined read-next-word command `0x1D40` while receiving the
previous word, and yields the received data. -/
def dump_loop : Nat → BDMM (List Nat)
  | 0 => pure []
  | k + 1 => do
    let r ← send_and_receive_packet 0x1D40
    let rest ← dump_loop k
    pure (r.data :: rest)

/-- Python `BDMCommandInterface.dump_words` with its generator fully consumed: the
returned list is the sequence of yielded 16-bit words.  The source first
sends the Read-Word command and the two address words (send-only), performs
`num_words -= 1` iterations of the pipelined loop (`range` of a non-positive
count is empty), then drains the last in-flight response. -/
def dump_words (base_address : Nat) (num_words : Int) : BDMM (List Nat) := do
  send_packet 0x1940
  send_packet (base_address >>> 16)
  send_packet (base_address &&& 0xFFFF)
  let ws ← dump_loop (num_words - 1).toNat
  let r ← receive_packet
  pure (ws ++ [r.data])

/-- Python `BDMCommandInterface.write_byte`. -/
def write_byte (address : Nat) (data : Int) : BDMM Unit :=
  if data > 255 ∨ data < 0 then
    pyRaise (.valueError "Cannot write byte out of range for byte!")
  else
    bdm_send [0x1800, address >>> 16, address &&& 0xFFFF, data.toNat &&& 0xFF]

/-- Python `BDMCommandInterface.write_word`. -/
def write_word (address : Nat) (data : Int) : BDMM Unit :=
  if data > 0xFFFF ∨ data < 0 then
    pyRaise (.valueError "Cannot write byte out of range for word!")
  else
    bdm_send [0x1840, address >>> 16, address &&& 0xFFFF, data.toNat]

/-- Python `BDMCommandInterface.write_longword`. -/
def write_longword (address : Nat) (data : Nat) : BDMM Unit :=
  bdm_send [0x1880, address >>> 16, address &&& 0xFFFF, data >>> 16,
            data &&& 0xFFFF]

/-- Python `BDMCommandInterface.write_control_register`: no bounds check; the
encoding is masked to 16 bits (Python `register & 0xFFFF`, which for a
negative int is its value mod 65536). -/
def write_control_register (register : Int) (data : Nat) : BDMM Unit :=
  bdm_send [0x2880, 0, (register % 65536).toNat, data >>> 16, data &&& 0xFFFF]

/-- Python `BDMCommandInterface.write_address_register`: bounds check, then the
single command word `0x2088 | register_number` via `_send_then_receive`.
The `data` argument is never transmitted by the source. -/
def write_address_register (register_number : Int) (data : Nat) : BDMM Nat :=
  if register_number > 7 ∨ register_number < 0 then
    pyRaise (.valueError addrRegBoundsMsg)
  else
    send_then_receive [0x2088 ||| register_number.toNat] 1

/-- Python `BDMCommandInterface.write_data_register`: same shape; `data` is never
transmitted by the source. -/
def write_data_register (register_number : Int) (data : Nat) : BDMM Nat :=
  if register_number > 7 ∨ register_number < 0 then
    pyRaise (.valueError dataRegBoundsMsg)
  else
    send_then_receive [0x2080 ||| register_number.toNat] 1

/-- Python `BDMCommandInterface.send_flash_write_enable`. -/
def send_flash_write_enable : BDMM Unit := do
  write_word (0x555 <<< 1) 0xAA
  write_word (0x2AA <<< 1) 0x55
  write_word (0x555 <<< 1) 0xA0

/-- Python `BDMCommandInterface.enter_flash_unlock_bypass`: the 3-word unlock key,
then `self.in_unlock_bypass_mode = True`. -/
def enter_flash_unlock_bypass : BDMM Unit := do
  write_word (0x555 <<< 1) 0xAA
  write_word (0x2AA <<< 1) 0x55
  write_word (0x555 <<< 1) 0x20
  modifyS fun m => { m with in_unlock_bypass_mode := some true }

/-- Message of the AttributeError raised when `self.in_unlock_bypass_mode`
is accessed before any flash-bypass method has assigned it. -/
def bypassAttrMsg : String :=
  "BDMCommandInterface object has no attribute in_unlock_bypass_mode"

/-- Message of the RuntimeError raised by `send_unlock_bypassed_flash_write`
when unlock-bypass mode is not active. -/
def bypassNotActiveMsg : String :=
  "To use this method, ensure that enter_flash_unlock_bypass has been called first."

/-- Python `BDMCommandInterface.send_unlock_bypassed_flash_write`: the guard reads
`self.in_unlock_bypass_mode`; if the attribute was never assigned, Python
raises `AttributeError` at the attribute access itself; if it is `False`,
the method raises `RuntimeError`; otherwise it writes the 2-word sequence. -/
def send_unlock_bypassed_flash_write (address : Nat) (data : Int) :
    BDMM Unit := do
  let m ← getS
  match m.in_unlock_bypass_mode with
  | none => pyRaise (.attributeError bypassAttrMsg)
  | some flag =>
    if flag then do
      write_word 0x00 0xA0
      write_word address data
    else
      pyRaise (.runtimeError bypassNotActiveMsg)

/-- Python `BDMCommandInterface.exit_flash_unlock_bypass`. -/
def exit_flash_unlock_bypass : BDMM Unit := do
  write_word 0x00 0x90
  write_word 0x00 0x00
  modifyS fun m => { m with in_unlock_bypass_mode := some false }

/-- Python `BDMCommandInterface.send_flash_chip_erase` (the fixed 30-second
`time.sleep` exchanges no bytes and so does not appear in the transport
model). -/
def send_flash_chip_erase : BDMM Unit := do
  write_word (0x555 <<< 1) 0xAA
  write_word (0x2AA <<< 1) 0x55
  write_word (0x555 <<< 1) 0x80
  write_word (0x555 <<< 1) 0xAA
  write_word (0x2AA <<< 1) 0x55
  write_word (0x555 <<< 1) 0x10
  write_word (0x555 <<< 1) 0xF0

/-- One `int(random.random() * 0xFFFFFFFF)` call: the next value of the
random stream, which lies in `[0, 0xFFFFFFFE]`. -/
def nextRand : BDMM Nat := fun m =>
  (.ok (m.rand m.randPos % 0xFFFFFFFF), { m with randPos := m.randPos + 1 })

/-- The list comprehension generating `n` pseudo-random register values. -/
def randList : Nat → BDMM (List Nat)
  | 0 => pure []
  | k + 1 => do
    let v ← nextRand
    let rest ← randList k
    pure (v :: rest)

/-- The list comprehension `[f i for i in range(start, start + cnt)]`,
evaluated left to right. -/
def mapRange {α : Type} (f : Nat → BDMM α) : Nat → Nat → BDMM (List α)
  | _, 0 => pure []
  | start, k + 1 => do
    let x ← f start
    let rest ← mapRange f (start + 1) k
    pure (x :: rest)

/-- The loop `for i, value in enumerate(values): w(i, value)` (results of
`w` are discarded, exceptions propagate). -/
def writeEnum (w : Nat → Nat → BDMM Nat) : Nat → List Nat → BDMM Unit
  | _, [] => pure ()
  | i, v :: vs => w i v >>= fun _ => writeEnum w (i + 1) vs

/-- Message of the inconsistent-read ValueError for address registers. -/
def addrInconsistentMsg : String :=
  "Read all 8 address registers twice in a row, but found different results."

/-- Message of the inconsistent-read ValueError for data registers. -/
def dataInconsistentMsg : String :=
  "Read all 8 data registers twice in a row, but found different results."

/-- Message of the write-verification ValueError for address registers. -/
def addrVerifyMsg : String :=
  "Wrote to all 8 address registers, but read different results."

/-- Message of the write-verification ValueError for data registers. -/
def dataVerifyMsg : String :=
  "Wrote to all 8 data registers twice in a row, but read different results."

/-- Python `BDMCommandInterface.consistency_check`: read all 16 registers twice and
compare; write 16 pseudo-random values; read back and compare; restore the
originally captured values.  (The Python error messages interpolate the
values involved; the messages here keep their fixed prefixes.) -/
def consistency_check : BDMM Unit := do
  let address_contents ← mapRange (fun i => read_address_register (i : Int)) 0 8
  let data_contents ← mapRange (fun i => read_data_register (i : Int)) 0 8
  let address_contents_again ← mapRange (fun i => read_address_register (i : Int)) 0 8
  if address_contents_again ≠ address_contents then
    pyRaise (.valueError addrInconsistentMsg)
  else do
  let data_contents_again ← mapRange (fun i => read_data_register (i : Int)) 0 8
  if data_contents_again ≠ data_contents then
    pyRaise (.valueError dataInconsistentMsg)
  else do
  let expected_address_contents ← randList 8
  let expected_data_contents ← randList 8
  writeEnum (fun i v => write_address_register (i : Int) v) 0 expected_address_contents
  writeEnum (fun i v => write_data_register (i : Int) v) 0 expected_data_contents
  let address_check ← mapRange (fun i => read_address_register (i : Int)) 0 8
  if address_check ≠ expected_address_contents then
    pyRaise (.valueError addrVerifyMsg)
  else do
  let data_check ← mapRange (fun i => read_data_register (i : Int)) 0 8
  if data_check ≠ expected_data_contents then
    pyRaise (.valueError dataVerifyMsg)
  else do
  writeEnum (fun i v => write_address_register (i : Int) v) 0 address_contents
  writeEnum (fun i v => write_data_register (i : Int) v) 0 data_contents

/-- Data word carried by the `k`-th 3-byte response frame delivered from
stream `rx` starting at byte position `pos` (bytes 1 and 2, little-endian). -/
def frameData (rx : Nat → Nat) (pos k : Nat) : Nat :=
  rx (pos + (3 * k + 1)) % 256 + 256 * (rx (pos + (3 * k + 2)) % 256)

/-- The 32-bit value produced by the `k`-th two-response-word register read
issued against stream `rx` from byte position `pos`: each such read consumes
three frames, the first of which is discarded. -/
def regReadValue (rx : Nat → Nat) (pos k : Nat) : Nat :=
  frameData rx pos (3 * k + 1) <<< 16 ||| frameData rx pos (3 * k + 2)

/-- The values of `cnt` consecutive register reads from byte position `pos`. -/
def regVals (rx : Nat → Nat) (pos cnt : Nat) : List Nat :=
  (List.range cnt).map (regReadValue rx pos)

/-- The values of `cnt` consecutive pseudo-random draws from position `pos`. -/
def randVals (rand : Nat → Nat) (pos cnt : Nat) : List Nat :=
  (List.range cnt).map (fun i => rand (pos + i) % 0xFFFFFFFF)

/-- Serial writes issued by reading registers `start, start+1, ...` (each
read: one send-and-receive of `op | i`, then two explicit receives). -/
def regReadFrames (op : Nat) : Nat → Nat → List (List Nat)
  | _, 0 => []
  | start, k + 1 =>
    txSendReceive (op ||| start) :: txReceive :: txReceive ::
      regReadFrames op (start + 1) k

/-- Serial writes issued by writing registers `start, start+1, ...` (each
write: one send-and-receive of `op | i`, then one explicit receive; the data
value never appears). -/
def regWriteFrames (op : Nat) : Nat → Nat → List (List Nat)
  | _, 0 => []
  | start, k + 1 =>
    txSendReceive (op ||| start) :: txReceive :: regWriteFrames op (start + 1) k

/-- Serial writes of one pass reading all 8 address registers. -/
def addrReadFrames : List (List Nat) := regReadFrames 0x2188 0 8

/-- Serial writes of one pass reading all 8 data registers. -/
def dataReadFrames : List (List Nat) := regReadFrames 0x2180 0 8

/-- Serial writes of one pass writing all 8 address registers. -/
def addrWriteFrames : List (List Nat) := regWriteFrames 0x2088 0 8

/-- Serial writes of one pass writing all 8 data registers. -/
def dataWriteFrames : List (List Nat) := regWriteFrames 0x2080 0 8

/-- Recognizes the serial write of a register-write command word: a 3-byte
`b"S"` frame whose command high byte is `0x20` (`0x2088 | n` / `0x2080 | n`).
Register-read command words have high byte `0x21` and receives are `b"r"`. -/
def isRegWriteFrame (f : List Nat) : Bool :=
  match f with
  | [b0, b1, _] => b0 == 0x53 && b1 == 0x20
  | _ => false

/-- The CSR value computed by `set_single_step_mode` before writing back:
clear bit 4, then set it iff `enabled`. -/
def modifiedCSR (csr : Nat) (enabled : Bool) : Nat :=
  if enabled then (csr &&& 0xFFFFFFEF) ||| 0b10000 else csr &&& 0xFFFFFFEF

/-- A freshly constructed engine (`BDMCommandInterface.__init__`) attached
to a transport whose receive stream is `rx`: nothing sent yet,
`current_step_mode = False`, and the `in_unlock_bypass_mode` attribute not
yet assigned. -/
def mkMachine (rx : Nat → Nat) : Machine :=
  { tx := [], rx := rx, rxPos := 0, rand := fun _ => 0, randPos := 0,
    current_step_mode := false, in_unlock_bypass_mode := none }

/-- Receive stream of a mock whose four response frames carry the data words
`0x1111, 0x2222, 0x3333, 0x4444` (each frame: status byte, then the word
little-endian). -/
def dumpMockRx : Nat → Nat := fun i =>
  [0, 0x11, 0x11, 0, 0x22, 0x22, 0, 0x33, 0x33, 0, 0x44, 0x44].getD i 0

/-- Receive stream delivering a single frame whose status byte is the
marker `b"N"` (0x4E) and whose data word is `0x0001` (little-endian). -/
def nFrameRx : Nat → Nat := fun i => [0x4E, 0x01, 0x00].getD i 0

/-- Receive stream under which every register read returns a distinct value
(read `k` sees only bytes of value `k`). -/
def distinctRx : Nat → Nat := fun i => i / 9 % 256

/-- Receive stream of all zeros. -/
def zeroRx : Nat → Nat := fun _ => 0

/-- Closed-form denotation of `consistency_check` on machine `m`, derived
from the source: the branch conditions compare the register values the
bridge delivers for the second read pass against the first (and the
read-back pass against the drawn random values), and each branch records
exactly the serial writes issued up to that outcome. -/
def ccResult (m : Machine) : Except PyErr Unit × Machine :=
  if regVals m.rx (m.rxPos + 144) 8 ≠ regVals m.rx m.rxPos 8 then
    (.error (.valueError addrInconsistentMsg),
     { m with
         tx := m.tx ++ (addrReadFrames ++ (dataReadFrames ++ addrReadFrames)),
         rxPos := m.rxPos + 216 })
  else if regVals m.rx (m.rxPos + 216) 8 ≠ regVals m.rx (m.rxPos + 72) 8 then
    (.error (.valueError dataInconsistentMsg),
     { m with
         tx := m.tx ++ (addrReadFrames ++ (dataReadFrames ++
                 (addrReadFrames ++ dataReadFrames))),
         rxPos := m.rxPos + 288 })
  else if regVals m.rx (m.rxPos + 384) 8 ≠ randVals m.rand m.randPos 8 then
    (.error (.valueError addrVerifyMsg),
     { m with
         tx := m.tx ++ (addrReadFrames ++ (dataReadFrames ++
                 (addrReadFrames ++ (dataReadFrames ++ (addrWriteFrames ++
                 (dataWriteFrames ++ addrReadFrames)))))),
         rxPos := m.rxPos + 456, randPos := m.randPos + 16 })
  else if regVals m.rx (m.rxPos + 456) 8 ≠ randVals m.rand (m.randPos + 8) 8 then
    (.error (.valueError dataVerifyMsg),
     { m with
         tx := m.tx ++ (addrReadFrames ++ (dataReadFrames ++
                 (addrReadFrames ++ (dataReadFrames ++ (addrWriteFrames ++
                 (dataWriteFrames ++ (addrReadFrames ++ dataReadFrames))))))),
         rxPos := m.rxPos + 528, randPos := m.randPos + 16 })
  else
    (.ok (),
     { m with
         tx := m.tx ++ (addrReadFrames ++ (dataReadFrames ++
                 (addrReadFrames ++ (dataReadFrames ++ (addrWriteFrames ++
                 (dataWriteFrames ++ (addrReadFrames ++ (dataReadFrames ++
                 (addrWriteFrames ++ dataWriteFrames))))))))),
         rxPos := m.rxPos + 624, randPos := m.randPos + 16 })

/- ------------------------------------------------------------------ -/
/- Theorems.                                                           -/
/- ------------------------------------------------------------------ -/

theorem runM_bind {α β : Type} (p : BDMM α) (f : α → BDMM β) (m : Machine) :
    runM (p >>= f) m =
      match runM p m with
      | (.ok a, m') => runM (f a) m'
      | (.error e, m') => (.error e, m') := rfl

theorem runM_pure {α : Type} (a : α) (m : Machine) :
    runM (pure a : BDMM α) m = (.ok a, m) := rfl

theorem runM_pyRaise {α : Type} (e : PyErr) (m : Machine) :
    runM (pyRaise e : BDMM α) m = (.error e, m) := rfl

theorem send_packet_run (c : Nat) (m : Machine) :
    runM (send_packet c) m = (.ok (), { m with tx := m.tx ++ [txSend c] }) := rfl

theorem receive_packet_run (m : Machine) :
    runM receive_packet m =
      (.ok { status := 0, data := frameData m.rx m.rxPos 0 },
       { m with tx := m.tx ++ [txReceive], rxPos := m.rxPos + 3 }) := rfl

theorem send_and_receive_packet_run (c : Nat) (m : Machine) :
    runM (send_and_receive_packet c) m =
      (.ok { status := 0, data := frameData m.rx m.rxPos 0 },
       { m with tx := m.tx ++ [txSendReceive c], rxPos := m.rxPos + 3 }) := rfl

theorem send_then_receive_one_two (c : Nat) (m : Machine) :
    runM (send_then_receive [c] 2) m =
      (.ok (regReadValue m.rx m.rxPos 0),
       { m with tx := m.tx ++ [txSendReceive c, txReceive, txReceive],
                rxPos := m.rxPos + 9 }) := by
  simp [send_then_receive, sendAll, receiveN, runM_bind, runM_pure,
        send_and_receive_packet_run, receive_packet_run, regReadValue,
        frameData, Machine.mk.injEq, Nat.add_assoc]

theorem send_then_receive_one_one (c : Nat) (m : Machine) :
    runM (send_then_receive [c] 1) m =
      (.ok (frameData m.rx m.rxPos 1),
       { m with tx := m.tx ++ [txSendReceive c, txReceive],
                rxPos := m.rxPos + 6 }) := by
  simp [send_then_receive, sendAll, receiveN, runM_bind, runM_pure,
        send_and_receive_packet_run, receive_packet_run,
        frameData, Machine.mk.injEq, Nat.add_assoc]

theorem send_then_receive_three_one (c1 c2 c3 : Nat) (m : Machine) :
    runM (send_then_receive [c1, c2, c3] 1) m =
      (.ok (frameData m.rx m.rxPos 3),
       { m with tx := m.tx ++ [txSendReceive c1, txSendReceive c2,
                               txSendReceive c3, txReceive],
                rxPos := m.rxPos + 12 }) := by
  simp [send_then_receive, sendAll, receiveN, runM_bind, runM_pure,
        send_and_receive_packet_run, receive_packet_run,
        frameData, Machine.mk.injEq, Nat.add_assoc]

theorem send_then_receive_three_two (c1 c2 c3 : Nat) (m : Machine) :
    runM (send_then_receive [c1, c2, c3] 2) m =
      (.ok (regReadValue m.rx (m.rxPos + 6) 0),
       { m with tx := m.tx ++ [txSendReceive c1, txSendReceive c2,
                               txSendReceive c3, txReceive, txReceive],
                rxPos := m.rxPos + 15 }) := by
  simp [send_then_receive, sendAll, receiveN, runM_bind, runM_pure,
        send_and_receive_packet_run, receive_packet_run, regReadValue,
        frameData, Machine.mk.injEq, Nat.add_assoc]

theorem read_address_register_run (i : Nat) (m : Machine) (h : i ≤ 7) :
    runM (read_address_register (i : Int)) m =
      (.ok (regReadValue m.rx m.rxPos 0),
       { m with tx := m.tx ++ [txSendReceive (0x2188 ||| i), txReceive, txReceive],
                rxPos := m.rxPos + 9 }) := by
  rw [read_address_register, if_neg (by omega), Int.toNat_natCast,
      send_then_receive_one_two]

theorem read_data_register_run (i : Nat) (m : Machine) (h : i ≤ 7) :
    runM (read_data_register (i : Int)) m =
      (.ok (regReadValue m.rx m.rxPos 0),
       { m with tx := m.tx ++ [txSendReceive (0x2180 ||| i), txReceive, txReceive],
                rxPos := m.rxPos + 9 }) := by
  rw [read_data_register, if_neg (by omega), Int.toNat_natCast,
      send_then_receive_one_two]

theorem write_address_register_run (i v : Nat) (m : Machine) (h : i ≤ 7) :
    runM (write_address_register (i : Int) v) m =
      (.ok (frameData m.rx m.rxPos 1),
       { m with tx := m.tx ++ [txSendReceive (0x2088 ||| i), txReceive],
                rxPos := m.rxPos + 6 }) := by
  rw [write_address_register, if_neg (by omega), Int.toNat_natCast,
      send_then_receive_one_one]

theorem write_data_register_run (i v : Nat) (m : Machine) (h : i ≤ 7) :
    runM (write_data_register (i : Int) v) m =
      (.ok (frameData m.rx m.rxPos 1),
       { m with tx := m.tx ++ [txSendReceive (0x2080 ||| i), txReceive],
                rxPos := m.rxPos + 6 }) := by
  rw [write_data_register, if_neg (by omega), Int.toNat_natCast,
      send_then_receive_one_one]

theorem read_csr_run (m : Machine) :
    runM read_debug_configuration_status_register m =
      (.ok { data := regReadValue m.rx m.rxPos 0 },
       { m with tx := m.tx ++ [txSendReceive 0x2D80, txReceive, txReceive],
                rxPos := m.rxPos + 9 }) := by
  simp [read_debug_configuration_status_register, runM_bind, runM_pure,
        send_then_receive_one_two]

theorem write_csr_run (v : Nat) (m : Machine) :
    runM (write_debug_configuration_status_register v) m =
      (.ok (frameData m.rx m.rxPos 3),
       { m with tx := m.tx ++ [txSendReceive 0x2C80, txSendReceive (v >>> 16),
                               txSendReceive (v &&& 0xFFF), txReceive],
                rxPos := m.rxPos + 12 }) := by
  rw [write_debug_configuration_status_register, send_then_receive_three_one]

theorem write_control_register_run (e : Int) (d : Nat) (m : Machine) :
    runM (write_control_register e d) m =
      (.ok (),
       { m with tx := m.tx ++ [txSendReceive 0x2880, txSendReceive 0,
                               txSendReceive (e % 65536).toNat,
                               txSendReceive (d >>> 16),
                               txSendReceive (d &&& 0xFFFF)],
                rxPos := m.rxPos + 15 }) := by
  simp [write_control_register, bdm_send, sendAll, runM_bind, runM_pure,
        send_and_receive_packet_run, Machine.mk.injEq, Nat.add_assoc]

theorem runM_getS (m : Machine) : runM getS m = (.ok m, m) := rfl

/-- C1: decoding a response packet with `status = 1` and `data = 0x0001`
raises the target-error ValueError; with `status = 1` and `data = 0xFFFF`
it raises the illegal-command ValueError; for every other (status, data)
combination, including `status = 1` with any other data value, no error is
raised and the 16-bit data is stored verbatim. -/
theorem claim_C1 (status data : Nat) :
    (status = 1 → data = 0x0001 →
      Response.make status data = .error (.valueError errorResponseMsg)) ∧
    (status = 1 → data = 0xFFFF →
      Response.make status data = .error (.valueError illegalCommandMsg)) ∧
    (¬(status = 1 ∧ (data = 0x0001 ∨ data = 0xFFFF)) →
      Response.make status data = .ok { status := status, data := data }) := by
  refine ⟨?_, ?_, ?_⟩
  · rintro rfl rfl; rfl
  · rintro rfl rfl; rfl
  · intro h
    unfold Response.make
    split_ifs with h1 h2 h3
    · exact absurd ⟨h1, Or.inl h2⟩ h
    · exact absurd ⟨h1, Or.inr h3⟩ h
    · rfl
    · rfl

theorem claim_C1_witness :
    Response.make 1 0x0001 = .error (.valueError errorResponseMsg) ∧
    Response.make 1 0xFFFF = .error (.valueError illegalCommandMsg) ∧
    Response.make 1 0x1234 = .ok { status := 1, data := 0x1234 } ∧
    Response.make 0 0x0001 = .ok { status := 0, data := 0x0001 } :=
  ⟨(claim_C1 1 0x0001).1 rfl rfl,
   (claim_C1 1 0xFFFF).2.1 rfl rfl,
   (claim_C1 1 0x1234).2.2 (by decide),
   (claim_C1 0 0x0001).2.2 (by decide)⟩

/-- C2: the decoded status bit of a received frame is 0 for EVERY incoming
byte 0, including the status marker `b"N"` (0x4E): the source compares
`response[0]` (an int) against `b"N"` (a bytes object), which is always
False in Python.  The data word is indeed bytes 1-2 little-endian.  In
particular, a frame `4E 01 00` decodes to status 0 / data 0x0001 instead of
the claimed status 1 (which would have raised the target-error sentinel). -/
theorem claim_C2 :
    (∀ m : Machine, runM receive_packet m =
      (.ok { status := 0, data := frameData m.rx m.rxPos 0 },
       { m with tx := m.tx ++ [txReceive], rxPos := m.rxPos + 3 })) ∧
    (runM receive_packet (mkMachine nFrameRx)).1 =
      .ok { status := 0, data := 0x0001 } :=
  ⟨fun m => receive_packet_run m, rfl⟩

/-- C3: `write_address_register` / `write_data_register` never transmit the
`data` argument: the run (serial writes included) is identical for every
data value, and the bytes sent are exactly the lone command word
`0x2088 | n` (resp. `0x2080 | n`) followed by one receive.  Hence a
write-then-read round trip cannot return the written value. -/
theorem claim_C3 (m : Machine) (n : Int) (v : Nat) (hn : 0 ≤ n) (h7 : n ≤ 7) :
    runM (write_address_register n v) m = runM (write_address_register n 0) m ∧
    runM (write_data_register n v) m = runM (write_data_register n 0) m ∧
    (runM (write_address_register n v) m).2.tx =
      m.tx ++ [txSendReceive (0x2088 ||| n.toNat), txReceive] ∧
    (runM (write_data_register n v) m).2.tx =
      m.tx ++ [txSendReceive (0x2080 ||| n.toNat), txReceive] := by
  obtain ⟨i, rfl⟩ := Int.eq_ofNat_of_zero_le hn
  have hi : i ≤ 7 := by exact_mod_cast h7
  refine ⟨?_, ?_, ?_, ?_⟩
  · rw [write_address_register_run i v m hi, write_address_register_run i 0 m hi]
  · rw [write_data_register_run i v m hi, write_data_register_run i 0 m hi]
  · rw [write_address_register_run i v m hi, Int.toNat_natCast]
  · rw [write_data_register_run i v m hi, Int.toNat_natCast]

theorem claim_C3_witness :
    (0 : Int) ≤ 0 ∧ (0 : Int) ≤ 7 ∧
    runM (write_address_register 0 0xDEADBEEF) (mkMachine zeroRx) =
      runM (write_address_register 0 0) (mkMachine zeroRx) :=
  ⟨by decide, by decide,
   (claim_C3 (mkMachine zeroRx) 0 0xDEADBEEF (by decide) (by decide)).1⟩

/-- C4: calling `send_unlock_bypassed_flash_write` on a freshly constructed
engine raises `AttributeError` (the `in_unlock_bypass_mode` attribute was
never initialized), not the claimed protocol-state `RuntimeError`; after
`exit_flash_unlock_bypass` (attribute `False`) it raises the
protocol-state `RuntimeError`.  In both cases the machine is unchanged, so
zero bytes are written to the transport. -/
theorem claim_C4 (m : Machine) (a : Nat) (d : Int) :
    (m.in_unlock_bypass_mode = none →
      runM (send_unlock_bypassed_flash_write a d) m =
        (.error (.attributeError bypassAttrMsg), m)) ∧
    (m.in_unlock_bypass_mode = some false →
      runM (send_unlock_bypassed_flash_write a d) m =
        (.error (.runtimeError bypassNotActiveMsg), m)) ∧
    (∀ rx : Nat → Nat, runM (send_unlock_bypassed_flash_write a d) (mkMachine rx) =
      (.error (.attributeError bypassAttrMsg), mkMachine rx)) := by
  refine ⟨?_, ?_, fun rx => rfl⟩
  · intro h
    simp [send_unlock_bypassed_flash_write, runM_bind, runM_getS, h, runM_pyRaise]
  · intro h
    simp [send_unlock_bypassed_flash_write, runM_bind, runM_getS, h, runM_pyRaise]

theorem claim_C4_witness :
    (mkMachine zeroRx).in_unlock_bypass_mode = none ∧
    runM (send_unlock_bypassed_flash_write 0x100 0x41) (mkMachine zeroRx) =
      (.error (.attributeError bypassAttrMsg), mkMachine zeroRx) :=
  ⟨rfl, (claim_C4 (mkMachine zeroRx) 0x100 0x41).1 rfl⟩

/-- C5 counterexample: `write_control_register` with the out-of-range
encoding 4096 raises no error and writes five frames to the transport,
contradicting the claim that every control-register operation validates the
encoding before sending. -/
theorem claim_C5_counterexample :
    (runM (write_control_register 4096 0) (mkMachine zeroRx)).1 = .ok () ∧
    (runM (write_control_register 4096 0) (mkMachine zeroRx)).2.tx.length = 5 := by
  constructor
  · rfl
  · rfl

/-- C5 (amended): for every register index outside [0,7] the four register
operations fail with the bounds ValueError leaving the machine untouched
(zero bytes sent), and for every encoding outside [0,4095] the
control-register READ fails likewise; but `write_control_register` performs
no bounds check: it always succeeds, masking the encoding to 16 bits. -/
theorem claim_C5 (m : Machine) (n e : Int) (d : Nat)
    (hn : n < 0 ∨ 7 < n) (he : e < 0 ∨ 4095 < e) :
    runM (read_address_register n) m = (.error (.valueError addrRegBoundsMsg), m) ∧
    runM (read_data_register n) m = (.error (.valueError dataRegBoundsMsg), m) ∧
    runM (write_address_register n d) m = (.error (.valueError addrRegBoundsMsg), m) ∧
    runM (write_data_register n d) m = (.error (.valueError dataRegBoundsMsg), m) ∧
    runM (read_control_register e) m = (.error (.valueError controlRegBoundsMsg), m) ∧
    (runM (write_control_register e d) m).1 = .ok () := by
  refine ⟨?_, ?_, ?_, ?_, ?_, ?_⟩
  · rw [read_address_register, if_pos (by omega)]; rfl
  · rw [read_data_register, if_pos (by omega)]; rfl
  · rw [write_address_register, if_pos (by omega)]; rfl
  · rw [write_data_register, if_pos (by omega)]; rfl
  · rw [read_control_register, if_pos (by omega)]; rfl
  · rw [write_control_register_run]

theorem claim_C5_witness :
    ((8 : Int) < 0 ∨ 7 < (8 : Int)) ∧ ((4096 : Int) < 0 ∨ 4095 < (4096 : Int)) ∧
    runM (read_address_register 8) (mkMachine zeroRx) =
      (.error (.valueError addrRegBoundsMsg), mkMachine zeroRx) ∧
    runM (read_control_register 4096) (mkMachine zeroRx) =
      (.error (.valueError controlRegBoundsMsg), mkMachine zeroRx) ∧
    (runM (write_control_register 4096 7) (mkMachine zeroRx)).1 = .ok () :=
  ⟨by decide, by decide,
   (claim_C5 (mkMachine zeroRx) 8 4096 7 (by decide) (by decide)).1,
   (claim_C5 (mkMachine zeroRx) 8 4096 7 (by decide) (by decide)).2.2.2.2.1,
   (claim_C5 (mkMachine zeroRx) 8 4096 7 (by decide) (by decide)).2.2.2.2.2⟩

/-- C7: writing the CSR sends `0x2C80`, then the high 16 bits, then only the
LOW TWELVE bits (`new_value & 0xFFF`) of the new value, and then reads one
response word (`_send_then_receive` with its default of one response).  At
`new_value = 0xF234` the third word sent is `0x234`, not the claimed
`0xF234`, so bits 12-15 of the CSR are not written back, and one response
word is read rather than none. -/
theorem claim_C7 (m : Machine) (v : Nat) :
    runM (write_debug_configuration_status_register v) m =
      (.ok (frameData m.rx m.rxPos 3),
       { m with tx := m.tx ++ [txSendReceive 0x2C80, txSendReceive (v >>> 16),
                               txSendReceive (v &&& 0xFFF), txReceive],
                rxPos := m.rxPos + 12 }) ∧
    (runM (write_debug_configuration_status_register 0xF234) (mkMachine zeroRx)).2.tx =
      [txSendReceive 0x2C80, txSendReceive 0, txSendReceive 0x234, txReceive] := by
  refine ⟨write_csr_run v m, ?_⟩
  rw [write_csr_run]
  rfl

theorem frameData_shift3 (rx : Nat → Nat) (pos k : Nat) :
    frameData rx (pos + 3) k = frameData rx pos (k + 1) := by
  unfold frameData
  have h1 : pos + 3 + (3 * k + 1) = pos + (3 * (k + 1) + 1) := by ring
  have h2 : pos + 3 + (3 * k + 2) = pos + (3 * (k + 1) + 2) := by ring
  rw [h1, h2]

theorem frameData_shift9 (rx : Nat → Nat) (pos k : Nat) :
    frameData rx (pos + 9) k = frameData rx pos (k + 3) := by
  unfold frameData
  have h1 : pos + 9 + (3 * k + 1) = pos + (3 * (k + 3) + 1) := by ring
  have h2 : pos + 9 + (3 * k + 2) = pos + (3 * (k + 3) + 2) := by ring
  rw [h1, h2]

theorem regReadValue_shift9 (rx : Nat → Nat) (pos k : Nat) :
    regReadValue rx (pos + 9) k = regReadValue rx pos (k + 1) := by
  unfold regReadValue
  rw [frameData_shift9, frameData_shift9]
  have h1 : 3 * k + 1 + 3 = 3 * (k + 1) + 1 := by ring
  have h2 : 3 * k + 2 + 3 = 3 * (k + 1) + 2 := by ring
  rw [h1, h2]

theorem runM_modifyS (f : Machine → Machine) (m : Machine) :
    runM (modifyS f) m = (.ok (), f m) := rfl

theorem runM_bind_ok {α β : Type} {p : BDMM α} {m m' : Machine} {a : α}
    (f : α → BDMM β) (h : runM p m = (.ok a, m')) :
    runM (p >>= f) m = runM (f a) m' := by
  rw [runM_bind, h]

set_option maxHeartbeats 1000000 in
theorem set_single_step_mode_eq (enabled : Bool) (m : Machine)
    (h : m.current_step_mode = enabled) :
    runM (set_single_step_mode enabled) m = (.ok (), m) := by
  unfold set_single_step_mode
  rw [runM_bind_ok _ (runM_getS m)]
  rw [if_pos h, runM_pure]

theorem set_single_step_mode_ne (enabled : Bool) (m : Machine)
    (h : ¬m.current_step_mode = enabled) :
    runM (set_single_step_mode enabled) m =
      (.ok (),
       { m with
           tx := m.tx ++ [txSendReceive 0x2D80, txReceive, txReceive,
                          txSendReceive 0x2C80,
                          txSendReceive
                            (modifiedCSR (regReadValue m.rx m.rxPos 0) enabled >>> 16),
                          txSendReceive
                            (modifiedCSR (regReadValue m.rx m.rxPos 0) enabled &&& 0xFFF),
                          txReceive],
           rxPos := m.rxPos + 21,
           current_step_mode := enabled }) := by
  cases enabled <;>
  · unfold set_single_step_mode
    rw [runM_bind_ok _ (runM_getS m)]
    rw [if_neg h]
    rw [runM_bind_ok _ (read_csr_run m)]
    rw [runM_bind_ok _ (write_csr_run _ _), runM_modifyS]
    simp [modifiedCSR, Machine.mk.injEq, Nat.add_assoc, List.append_assoc]

/-- C6: `set_single_step_mode(enabled)` is a no-op (no bytes at all, hence
no CSR read or write) when the cached mode equals `enabled`; otherwise it
reads the CSR, writes back `modifiedCSR` (bit 4 cleared, then set iff
`enabled`) via the CSR-write command — exactly one `0x2C80` command in the
appended frames — and updates the cache, so an immediate second call with
the same value appends nothing.  CSR bit-4 decoding: raw `0x10` is true,
raw `0x0` is false. -/
theorem claim_C6 (m : Machine) (enabled : Bool) :
    (m.current_step_mode = enabled →
      runM (set_single_step_mode enabled) m = (.ok (), m)) ∧
    (m.current_step_mode ≠ enabled →
      runM (set_single_step_mode enabled) m =
        (.ok (),
         { m with
             tx := m.tx ++ [txSendReceive 0x2D80, txReceive, txReceive,
                            txSendReceive 0x2C80,
                            txSendReceive
                              (modifiedCSR (regReadValue m.rx m.rxPos 0) enabled >>> 16),
                            txSendReceive
                              (modifiedCSR (regReadValue m.rx m.rxPos 0) enabled &&& 0xFFF),
                            txReceive],
             rxPos := m.rxPos + 21,
             current_step_mode := enabled })) ∧
    (m.current_step_mode ≠ enabled →
      runM (set_single_step_mode enabled)
          ((runM (set_single_step_mode enabled) m).2) =
        (.ok (), (runM (set_single_step_mode enabled) m).2)) ∧
    ConfigurationStatusRegister.single_step_mode { data := 0x00000010 } = true ∧
    ConfigurationStatusRegister.single_step_mode { data := 0x00000000 } = false := by
  refine ⟨set_single_step_mode_eq enabled m, set_single_step_mode_ne enabled m,
          ?_, by decide, by decide⟩
  intro h
  rw [set_single_step_mode_ne enabled m h]
  exact set_single_step_mode_eq enabled _ rfl

theorem claim_C6_witness :
    (mkMachine zeroRx).current_step_mode ≠ true ∧
    runM (set_single_step_mode true) (mkMachine zeroRx) =
      (.ok (),
       { mkMachine zeroRx with
           tx := [txSendReceive 0x2D80, txReceive, txReceive,
                  txSendReceive 0x2C80, txSendReceive 0x0, txSendReceive 0x10,
                  txReceive],
           rxPos := 21,
           current_step_mode := true }) := by
  refine ⟨by decide, ?_⟩
  rw [(claim_C6 (mkMachine zeroRx) true).2.1 (by decide)]
  rfl

theorem frameData_shift_mul (rx : Nat → Nat) (pos t k : Nat) :
    frameData rx (pos + 3 * t) k = frameData rx pos (t + k) := by
  unfold frameData
  have h1 : pos + 3 * t + (3 * k + 1) = pos + (3 * (t + k) + 1) := by ring
  have h2 : pos + 3 * t + (3 * k + 2) = pos + (3 * (t + k) + 2) := by ring
  rw [h1, h2]

theorem dump_loop_run (k : Nat) : ∀ m : Machine,
    runM (dump_loop k) m =
      (.ok ((List.range k).map (frameData m.rx m.rxPos)),
       { m with tx := m.tx ++ List.replicate k (txSendReceive 0x1D40),
                rxPos := m.rxPos + 3 * k }) := by
  induction k with
  | zero =>
    intro m
    simp [dump_loop, runM_pure]
  | succ k ih =>
    intro m
    unfold dump_loop
    rw [runM_bind_ok _ (send_and_receive_packet_run 0x1D40 m)]
    rw [runM_bind_ok _ (ih _)]
    rw [runM_pure]
    have hmap : (List.range (k + 1)).map (frameData m.rx m.rxPos) =
        frameData m.rx m.rxPos 0 ::
          (List.range k).map (frameData m.rx (m.rxPos + 3)) := by
      rw [List.range_succ_eq_map, List.map_cons, List.map_map]
      refine congrArg _ (List.map_congr_left fun j _ => ?_)
      exact (frameData_shift3 m.rx m.rxPos j).symm
    rw [hmap]
    simp [Machine.mk.injEq, List.append_assoc, List.replicate_succ,
          Nat.mul_succ]
    omega

theorem dump_words_run (base : Nat) (n : Int) (m : Machine) :
    runM (dump_words base n) m =
      (.ok ((List.range ((n - 1).toNat + 1)).map (frameData m.rx m.rxPos)),
       { m with
           tx := m.tx ++ (txSend 0x1940 :: txSend (base >>> 16) ::
                  txSend (base &&& 0xFFFF) ::
                  (List.replicate (n - 1).toNat (txSendReceive 0x1D40) ++
                   [txReceive])),
           rxPos := m.rxPos + (3 * (n - 1).toNat + 3) }) := by
  unfold dump_words
  rw [runM_bind_ok _ (send_packet_run 0x1940 m)]
  rw [runM_bind_ok _ (send_packet_run _ _)]
  rw [runM_bind_ok _ (send_packet_run _ _)]
  rw [runM_bind_ok _ (dump_loop_run _ _)]
  rw [runM_bind_ok _ (receive_packet_run _)]
  rw [runM_pure]
  rw [List.range_succ, List.map_append]
  simp [Machine.mk.injEq, List.append_assoc, frameData_shift_mul,
        Nat.add_assoc]

/-- C8: for every base address (32-bit) and every count at least 1,
`dump_words` yields exactly `count` 16-bit words, the data words of the
`count` consecutive response frames in order; the bytes sent are the
Read-Word command and the two address words (send-only), then `count - 1`
pipelined `0x1D40` send-and-receive commands, then one final drain receive. -/
theorem claim_C8 (m : Machine) (base : Nat) (count : Int)
    (h1 : 1 ≤ count) (hbase : base < 2 ^ 32) :
    runM (dump_words base count) m =
      (.ok ((List.range count.toNat).map (frameData m.rx m.rxPos)),
       { m with
           tx := m.tx ++ (txSend 0x1940 :: txSend (base >>> 16) ::
                  txSend (base &&& 0xFFFF) ::
                  (List.replicate (count.toNat - 1) (txSendReceive 0x1D40) ++
                   [txReceive])),
           rxPos := m.rxPos + 3 * count.toNat }) ∧
    ((List.range count.toNat).map (frameData m.rx m.rxPos)).length =
      count.toNat := by
  have ht : (count - 1).toNat = count.toNat - 1 := by omega
  have ht2 : (count - 1).toNat + 1 = count.toNat := by omega
  have ht3 : 3 * (count - 1).toNat + 3 = 3 * count.toNat := by omega
  refine ⟨?_, by simp⟩
  rw [dump_words_run, ht2, ht3, ht]

theorem claim_C8_witness :
    (1 : Int) ≤ 4 ∧ (0x1000 : Nat) < 2 ^ 32 ∧
    (runM (dump_words 0x1000 4) (mkMachine dumpMockRx)).1 =
      .ok [0x1111, 0x2222, 0x3333, 0x4444] := by
  refine ⟨by decide, by decide, ?_⟩
  rw [(claim_C8 (mkMachine dumpMockRx) 0x1000 4 (by decide) (by decide)).1]
  rfl

/-- C10: `dump_words` never yields an empty sequence: for every count the
number of yielded words is `max count 1`; in particular for every
non-positive count it sends the three address-setup words, still performs
one receive, and yields exactly one word. -/
theorem claim_C10 (m : Machine) (base : Nat) (n : Int) :
    (∃ ws : List Nat, (runM (dump_words base n) m).1 = .ok ws ∧
       (ws.length : Int) = max n 1) ∧
    (n ≤ 0 →
      runM (dump_words base n) m =
        (.ok [frameData m.rx m.rxPos 0],
         { m with
             tx := m.tx ++ [txSend 0x1940, txSend (base >>> 16),
                            txSend (base &&& 0xFFFF), txReceive],
             rxPos := m.rxPos + 3 })) := by
  constructor
  · refine ⟨_, by rw [dump_words_run], ?_⟩
    simp
    omega
  · intro hn
    have h0 : (n - 1).toNat = 0 := by omega
    rw [dump_words_run, h0]
    simp [List.range_succ]

theorem claim_C10_witness :
    (0 : Int) ≤ 0 ∧
    runM (dump_words 0x1000 0) (mkMachine zeroRx) =
      (.ok [0],
       { mkMachine zeroRx with
           tx := [txSend 0x1940, txSend 0x0, txSend 0x1000, txReceive],
           rxPos := 3 }) := by
  refine ⟨by decide, ?_⟩
  rw [(claim_C10 (mkMachine zeroRx) 0x1000 0).2 (by decide)]
  rfl

theorem regVals_cons (rx : Nat → Nat) (pos k : Nat) :
    regVals rx pos (k + 1) = regReadValue rx pos 0 :: regVals rx (pos + 9) k := by
  unfold regVals
  rw [List.range_succ_eq_map, List.map_cons, List.map_map]
  refine congrArg _ ?_
  refine List.map_congr_left fun j _ => ?_
  exact (regReadValue_shift9 rx pos j).symm

theorem regVals_length (rx : Nat → Nat) (pos cnt : Nat) :
    (regVals rx pos cnt).length = cnt := by
  simp [regVals]

theorem randVals_cons (rand : Nat → Nat) (pos k : Nat) :
    randVals rand pos (k + 1) =
      rand pos % 0xFFFFFFFF :: randVals rand (pos + 1) k := by
  unfold randVals
  rw [List.range_succ_eq_map, List.map_cons, List.map_map]
  refine congrArg₂ _ (by rw [Nat.add_zero]) ?_
  refine List.map_congr_left fun j _ => ?_
  have h : pos + (j + 1) = pos + 1 + j := by ring
  simp [Function.comp, Nat.succ_eq_add_one, h]

theorem randVals_length (rand : Nat → Nat) (pos cnt : Nat) :
    (randVals rand pos cnt).length = cnt := by
  simp [randVals]

theorem runM_nextRand (m : Machine) :
    runM nextRand m = (.ok (m.rand m.randPos % 0xFFFFFFFF),
      { m with randPos := m.randPos + 1 }) := rfl

theorem randList_run (k : Nat) : ∀ m : Machine,
    runM (randList k) m =
      (.ok (randVals m.rand m.randPos k), { m with randPos := m.randPos + k }) := by
  induction k with
  | zero =>
    intro m
    simp [randList, runM_pure, randVals]
  | succ k ih =>
    intro m
    unfold randList
    rw [runM_bind_ok _ (runM_nextRand m)]
    rw [runM_bind_ok _ (ih _)]
    rw [runM_pure, randVals_cons]
    simp [Machine.mk.injEq]
    omega

theorem mapRange_read_addr (cnt : Nat) : ∀ start : Nat, start + cnt ≤ 8 →
    ∀ m : Machine,
    runM (mapRange (fun i => read_address_register (i : Int)) start cnt) m =
      (.ok (regVals m.rx m.rxPos cnt),
       { m with tx := m.tx ++ regReadFrames 0x2188 start cnt,
                rxPos := m.rxPos + 9 * cnt }) := by
  induction cnt with
  | zero =>
    intro start h m
    simp [mapRange, runM_pure, regVals, regReadFrames]
  | succ k ih =>
    intro start h m
    unfold mapRange
    rw [runM_bind_ok _ (read_address_register_run start m (by omega))]
    rw [runM_bind_ok _ (ih (start + 1) (by omega) _)]
    rw [runM_pure, regVals_cons]
    simp [Machine.mk.injEq, regReadFrames, List.append_assoc]
    omega

theorem mapRange_read_data (cnt : Nat) : ∀ start : Nat, start + cnt ≤ 8 →
    ∀ m : Machine,
    runM (mapRange (fun i => read_data_register (i : Int)) start cnt) m =
      (.ok (regVals m.rx m.rxPos cnt),
       { m with tx := m.tx ++ regReadFrames 0x2180 start cnt,
                rxPos := m.rxPos + 9 * cnt }) := by
  induction cnt with
  | zero =>
    intro start h m
    simp [mapRange, runM_pure, regVals, regReadFrames]
  | succ k ih =>
    intro start h m
    unfold mapRange
    rw [runM_bind_ok _ (read_data_register_run start m (by omega))]
    rw [runM_bind_ok _ (ih (start + 1) (by omega) _)]
    rw [runM_pure, regVals_cons]
    simp [Machine.mk.injEq, regReadFrames, List.append_assoc]
    omega

theorem writeEnum_addr (vs : List Nat) : ∀ start : Nat, start + vs.length ≤ 8 →
    ∀ m : Machine,
    runM (writeEnum (fun i v => write_address_register (i : Int) v) start vs) m =
      (.ok (),
       { m with tx := m.tx ++ regWriteFrames 0x2088 start (vs.length),
                rxPos := m.rxPos + 6 * (vs.length) }) := by
  induction vs with
  | nil =>
    intro start h m
    simp [writeEnum, runM_pure, regWriteFrames]
  | cons v vs ih =>
    intro start h m
    unfold writeEnum
    rw [runM_bind_ok _ (write_address_register_run start v m
          (by simp at h; omega))]
    rw [ih (start + 1) (by simp at h ⊢; omega) _]
    simp [Machine.mk.injEq, regWriteFrames, List.append_assoc]
    omega

theorem writeEnum_data (vs : List Nat) : ∀ start : Nat, start + vs.length ≤ 8 →
    ∀ m : Machine,
    runM (writeEnum (fun i v => write_data_register (i : Int) v) start vs) m =
      (.ok (),
       { m with tx := m.tx ++ regWriteFrames 0x2080 start (vs.length),
                rxPos := m.rxPos + 6 * (vs.length) }) := by
  induction vs with
  | nil =>
    intro start h m
    simp [writeEnum, runM_pure, regWriteFrames]
  | cons v vs ih =>
    intro start h m
    unfold writeEnum
    rw [runM_bind_ok _ (write_data_register_run start v m
          (by simp at h; omega))]
    rw [ih (start + 1) (by simp at h ⊢; omega) _]
    simp [Machine.mk.injEq, regWriteFrames, List.append_assoc]
    omega

theorem readsA8 (m : Machine) :
    runM (mapRange (fun i => read_address_register (i : Int)) 0 8) m =
      (.ok (regVals m.rx m.rxPos 8),
       { m with tx := m.tx ++ addrReadFrames, rxPos := m.rxPos + 72 }) := by
  rw [mapRange_read_addr 8 0 (by omega) m]
  simp [addrReadFrames]

theorem readsD8 (m : Machine) :
    runM (mapRange (fun i => read_data_register (i : Int)) 0 8) m =
      (.ok (regVals m.rx m.rxPos 8),
       { m with tx := m.tx ++ dataReadFrames, rxPos := m.rxPos + 72 }) := by
  rw [mapRange_read_data 8 0 (by omega) m]
  simp [dataReadFrames]

theorem writesA8 (vs : List Nat) (h : vs.length = 8) (m : Machine) :
    runM (writeEnum (fun i v => write_address_register (i : Int) v) 0 vs) m =
      (.ok (),
       { m with tx := m.tx ++ addrWriteFrames, rxPos := m.rxPos + 48 }) := by
  rw [writeEnum_addr vs 0 (by omega) m, h]
  simp [addrWriteFrames]

theorem writesD8 (vs : List Nat) (h : vs.length = 8) (m : Machine) :
    runM (writeEnum (fun i v => write_data_register (i : Int) v) 0 vs) m =
      (.ok (),
       { m with tx := m.tx ++ dataWriteFrames, rxPos := m.rxPos + 48 }) := by
  rw [writeEnum_data vs 0 (by omega) m, h]
  simp [dataWriteFrames]

set_option maxHeartbeats 1000000 in
theorem consistency_check_run (m : Machine) :
    runM consistency_check m = ccResult m := by
  have s1 := readsA8 m
  have s2 : runM (mapRange (fun i => read_data_register (i : Int)) 0 8)
      { m with tx := m.tx ++ addrReadFrames, rxPos := m.rxPos + 72 } =
      (.ok (regVals m.rx (m.rxPos + 72) 8),
       { m with tx := m.tx ++ (addrReadFrames ++ dataReadFrames),
                rxPos := m.rxPos + 144 }) := by
    rw [readsD8]
    simp [List.append_assoc, Nat.add_assoc]
  have s3 : runM (mapRange (fun i => read_address_register (i : Int)) 0 8)
      { m with tx := m.tx ++ (addrReadFrames ++ dataReadFrames),
               rxPos := m.rxPos + 144 } =
      (.ok (regVals m.rx (m.rxPos + 144) 8),
       { m with tx := m.tx ++ (addrReadFrames ++ (dataReadFrames ++ addrReadFrames)),
                rxPos := m.rxPos + 216 }) := by
    rw [readsA8]
    simp [List.append_assoc, Nat.add_assoc]
  have s4 : runM (mapRange (fun i => read_data_register (i : Int)) 0 8)
      { m with tx := m.tx ++ (addrReadFrames ++ (dataReadFrames ++ addrReadFrames)),
               rxPos := m.rxPos + 216 } =
      (.ok (regVals m.rx (m.rxPos + 216) 8),
       { m with tx := m.tx ++ (addrReadFrames ++ (dataReadFrames ++
                  (addrReadFrames ++ dataReadFrames))),
                rxPos := m.rxPos + 288 }) := by
    rw [readsD8]
    simp [List.append_assoc, Nat.add_assoc]
  have s5 : runM (randList 8)
      { m with tx := m.tx ++ (addrReadFrames ++ (dataReadFrames ++
                  (addrReadFrames ++ dataReadFrames))),
               rxPos := m.rxPos + 288 } =
      (.ok (randVals m.rand m.randPos 8),
       { m with tx := m.tx ++ (addrReadFrames ++ (dataReadFrames ++
                  (addrReadFrames ++ dataReadFrames))),
                rxPos := m.rxPos + 288, randPos := m.randPos + 8 }) := by
    rw [randList_run]
  have s6 : runM (randList 8)
      { m with tx := m.tx ++ (addrReadFrames ++ (dataReadFrames ++
                  (addrReadFrames ++ dataReadFrames))),
               rxPos := m.rxPos + 288, randPos := m.randPos + 8 } =
      (.ok (randVals m.rand (m.randPos + 8) 8),
       { m with tx := m.tx ++ (addrReadFrames ++ (dataReadFrames ++
                  (addrReadFrames ++ dataReadFrames))),
                rxPos := m.rxPos + 288, randPos := m.randPos + 16 }) := by
    rw [randList_run]
  have s7 : runM (writeEnum (fun i v => write_address_register (i : Int) v) 0
        (randVals m.rand m.randPos 8))
      { m with tx := m.tx ++ (addrReadFrames ++ (dataReadFrames ++
                  (addrReadFrames ++ dataReadFrames))),
               rxPos := m.rxPos + 288, randPos := m.randPos + 16 } =
      (.ok (),
       { m with tx := m.tx ++ (addrReadFrames ++ (dataReadFrames ++
                  (addrReadFrames ++ (dataReadFrames ++ addrWriteFrames)))),
                rxPos := m.rxPos + 336, randPos := m.randPos + 16 }) := by
    rw [writesA8 _ (randVals_length m.rand m.randPos 8)]
    simp [List.append_assoc, Nat.add_assoc]
  have s8 : runM (writeEnum (fun i v => write_data_register (i : Int) v) 0
        (randVals m.rand (m.randPos + 8) 8))
      { m with tx := m.tx ++ (addrReadFrames ++ (dataReadFrames ++
                  (addrReadFrames ++ (dataReadFrames ++ addrWriteFrames)))),
               rxPos := m.rxPos + 336, randPos := m.randPos + 16 } =
      (.ok (),
       { m with tx := m.tx ++ (addrReadFrames ++ (dataReadFrames ++
                  (addrReadFrames ++ (dataReadFrames ++ (addrWriteFrames ++
                  dataWriteFrames))))),
                rxPos := m.rxPos + 384, randPos := m.randPos + 16 }) := by
    rw [writesD8 _ (randVals_length m.rand (m.randPos + 8) 8)]
    simp [List.append_assoc, Nat.add_assoc]
  have s9 : runM (mapRange (fun i => read_address_register (i : Int)) 0 8)
      { m with tx := m.tx ++ (addrReadFrames ++ (dataReadFrames ++
                  (addrReadFrames ++ (dataReadFrames ++ (addrWriteFrames ++
                  dataWriteFrames))))),
               rxPos := m.rxPos + 384, randPos := m.randPos + 16 } =
      (.ok (regVals m.rx (m.rxPos + 384) 8),
       { m with tx := m.tx ++ (addrReadFrames ++ (dataReadFrames ++
                  (addrReadFrames ++ (dataReadFrames ++ (addrWriteFrames ++
                  (dataWriteFrames ++ addrReadFrames)))))),
                rxPos := m.rxPos + 456, randPos := m.randPos + 16 }) := by
    rw [readsA8]
    simp [List.append_assoc, Nat.add_assoc]
  have s10 : runM (mapRange (fun i => read_data_register (i : Int)) 0 8)
      { m with tx := m.tx ++ (addrReadFrames ++ (dataReadFrames ++
                  (addrReadFrames ++ (dataReadFrames ++ (addrWriteFrames ++
                  (dataWriteFrames ++ addrReadFrames)))))),
               rxPos := m.rxPos + 456, randPos := m.randPos + 16 } =
      (.ok (regVals m.rx (m.rxPos + 456) 8),
       { m with tx := m.tx ++ (addrReadFrames ++ (dataReadFrames ++
                  (addrReadFrames ++ (dataReadFrames ++ (addrWriteFrames ++
                  (dataWriteFrames ++ (addrReadFrames ++ dataReadFrames))))))),
                rxPos := m.rxPos + 528, randPos := m.randPos + 16 }) := by
    rw [readsD8]
    simp [List.append_assoc, Nat.add_assoc]
  have s11 : runM (writeEnum (fun i v => write_address_register (i : Int) v) 0
        (regVals m.rx m.rxPos 8))
      { m with tx := m.tx ++ (addrReadFrames ++ (dataReadFrames ++
                  (addrReadFrames ++ (dataReadFrames ++ (addrWriteFrames ++
                  (dataWriteFrames ++ (addrReadFrames ++ dataReadFrames))))))),
               rxPos := m.rxPos + 528, randPos := m.randPos + 16 } =
      (.ok (),
       { m with tx := m.tx ++ (addrReadFrames ++ (dataReadFrames ++
                  (addrReadFrames ++ (dataReadFrames ++ (addrWriteFrames ++
                  (dataWriteFrames ++ (addrReadFrames ++ (dataReadFrames ++
                  addrWriteFrames)))))))),
                rxPos := m.rxPos + 576, randPos := m.randPos + 16 }) := by
    rw [writesA8 _ (regVals_length m.rx m.rxPos 8)]
    simp [List.append_assoc, Nat.add_assoc]
  have s12 : runM (writeEnum (fun i v => write_data_register (i : Int) v) 0
        (regVals m.rx (m.rxPos + 72) 8))
      { m with tx := m.tx ++ (addrReadFrames ++ (dataReadFrames ++
                  (addrReadFrames ++ (dataReadFrames ++ (addrWriteFrames ++
                  (dataWriteFrames ++ (addrReadFrames ++ (dataReadFrames ++
                  addrWriteFrames)))))))),
               rxPos := m.rxPos + 576, randPos := m.randPos + 16 } =
      (.ok (),
       { m with tx := m.tx ++ (addrReadFrames ++ (dataReadFrames ++
                  (addrReadFrames ++ (dataReadFrames ++ (addrWriteFrames ++
                  (dataWriteFrames ++ (addrReadFrames ++ (dataReadFrames ++
                  (addrWriteFrames ++ dataWriteFrames))))))))),
                rxPos := m.rxPos + 624, randPos := m.randPos + 16 }) := by
    rw [writesD8 _ (regVals_length m.rx (m.rxPos + 72) 8)]
    simp [List.append_assoc, Nat.add_assoc]
  unfold consistency_check
  rw [runM_bind_ok _ s1, runM_bind_ok _ s2, runM_bind_ok _ s3]
  unfold ccResult
  by_cases h1 : regVals m.rx (m.rxPos + 144) 8 ≠ regVals m.rx m.rxPos 8
  · rw [if_pos h1, runM_pyRaise, if_pos h1]
  · rw [if_neg h1, if_neg h1]
    rw [runM_bind_ok _ s4]
    by_cases h2 : regVals m.rx (m.rxPos + 216) 8 ≠ regVals m.rx (m.rxPos + 72) 8
    · rw [if_pos h2, runM_pyRaise, if_pos h2]
    · rw [if_neg h2, if_neg h2]
      rw [runM_bind_ok _ s5, runM_bind_ok _ s6, runM_bind_ok _ s7,
          runM_bind_ok _ s8, runM_bind_ok _ s9]
      by_cases h3 : regVals m.rx (m.rxPos + 384) 8 ≠ randVals m.rand m.randPos 8
      · rw [if_pos h3, runM_pyRaise, if_pos h3]
      · rw [if_neg h3, if_neg h3]
        rw [runM_bind_ok _ s10]
        by_cases h4 : regVals m.rx (m.rxPos + 456) 8 ≠
            randVals m.rand (m.randPos + 8) 8
        · rw [if_pos h4, runM_pyRaise, if_pos h4]
        · rw [if_neg h4, if_neg h4]
          rw [runM_bind_ok _ s11, s12]

/-- C9: if the second read pass over the address registers differs from the
first, `consistency_check` fails with the inconsistent-read ValueError while
the transport has seen only read-register frames (no register-write frame,
so the failure precedes any write); likewise for the data registers.
Moreover the restore writes run only on the success path: a successful check
issues exactly 32 register-write commands (16 random writes + 16 restores),
while every failing run issues at most 16 (never the restores). -/
theorem claim_C9 (m : Machine) :
    (regVals m.rx (m.rxPos + 144) 8 ≠ regVals m.rx m.rxPos 8 →
      runM consistency_check m =
        (.error (.valueError addrInconsistentMsg),
         { m with
             tx := m.tx ++ (addrReadFrames ++ (dataReadFrames ++ addrReadFrames)),
             rxPos := m.rxPos + 216 }) ∧
      (addrReadFrames ++ (dataReadFrames ++ addrReadFrames)).countP
          isRegWriteFrame = 0) ∧
    (regVals m.rx (m.rxPos + 144) 8 = regVals m.rx m.rxPos 8 →
     regVals m.rx (m.rxPos + 216) 8 ≠ regVals m.rx (m.rxPos + 72) 8 →
      runM consistency_check m =
        (.error (.valueError dataInconsistentMsg),
         { m with
             tx := m.tx ++ (addrReadFrames ++ (dataReadFrames ++
                     (addrReadFrames ++ dataReadFrames))),
             rxPos := m.rxPos + 288 }) ∧
      (addrReadFrames ++ (dataReadFrames ++ (addrReadFrames ++
          dataReadFrames))).countP isRegWriteFrame = 0) ∧
    ((runM consistency_check m).1 = .ok () →
      (runM consistency_check m).2.tx.countP isRegWriteFrame =
        m.tx.countP isRegWriteFrame + 32) ∧
    (∀ e : PyErr, (runM consistency_check m).1 = .error e →
      (runM consistency_check m).2.tx.countP isRegWriteFrame ≤
        m.tx.countP isRegWriteFrame + 16) := by
  have hAR : addrReadFrames.countP isRegWriteFrame = 0 := by decide
  have hDR : dataReadFrames.countP isRegWriteFrame = 0 := by decide
  have hAW : addrWriteFrames.countP isRegWriteFrame = 8 := by decide
  have hDW : dataWriteFrames.countP isRegWriteFrame = 8 := by decide
  refine ⟨?_, ?_, ?_, ?_⟩
  · intro h
    rw [consistency_check_run]
    unfold ccResult
    rw [if_pos h]
    exact ⟨rfl, by simp [List.countP_append, hAR, hDR]⟩
  · intro h1 h2
    rw [consistency_check_run]
    unfold ccResult
    rw [if_neg (fun hne => hne h1), if_pos h2]
    exact ⟨rfl, by simp [List.countP_append, hAR, hDR]⟩
  · intro hok
    rw [consistency_check_run] at hok ⊢
    unfold ccResult at hok ⊢
    split_ifs at hok ⊢ with h1 h2 h3 h4
    simp [List.countP_append, hAR, hDR, hAW, hDW]
  · intro e herr
    rw [consistency_check_run] at herr ⊢
    unfold ccResult at herr ⊢
    split_ifs at herr ⊢ with h1 h2 h3 h4
    · simp [List.countP_append, hAR, hDR]
    · simp [List.countP_append, hAR, hDR]
    · simp [List.countP_append, hAR, hDR, hAW, hDW]
    · simp [List.countP_append, hAR, hDR, hAW, hDW]

theorem claim_C9_witness :
    regVals (mkMachine distinctRx).rx ((mkMachine distinctRx).rxPos + 144) 8 ≠
      regVals (mkMachine distinctRx).rx (mkMachine distinctRx).rxPos 8 ∧
    (runM consistency_check (mkMachine distinctRx)).1 =
      .error (.valueError addrInconsistentMsg) := by
  refine ⟨by decide, ?_⟩
  rw [((claim_C9 (mkMachine distinctRx)).1 (by decide)).1]

end ColdfireBDM
